import Mathlib

/-!
# Verification of the LLMWhisperer invoice-extraction orchestrator

Shallow embedding of `src/main.py`: an HTTP endpoint that submits a document
to an OCR service (LLMWhisperer), polls for completion, retrieves extracted
text, and asks an LLM completion service to structure it as invoice JSON.

The two remote services are black boxes; each network call is modelled by the
response the environment supplies for it.  Python exceptions are modelled by
an explicit error type: `HTTPException` values raised by the code itself are
the "structured" errors (the framework renders their status code and detail),
while the other constructors model ordinary Python exceptions that the code
does not catch.  JSON values are modelled by an inductive type, and Python's
`json.loads` by the parse outcome the environment supplies alongside each
response body.
-/

namespace InvoiceExtractor

/-- A JSON value, as produced by Python's `json` module: objects are modelled
as association lists of fields (duplicate keys do not arise from `json.loads`). -/
inductive JValue where
  | null
  | bool (b : Bool)
  | num (q : ℚ)
  | str (s : String)
  | arr (items : List JValue)
  | obj (fields : List (String × JValue))
deriving Repr

/-- Python exceptions that can escape the functions of `src/main.py`.
`httpException` models `fastapi.HTTPException(status_code, detail)` — the one
structured error the code raises deliberately; the remaining constructors
model uncaught ordinary exceptions (`KeyError` from `d[k]` on a missing key,
`json.JSONDecodeError` from `json.loads`, `AttributeError`/`TypeError` from
using a non-dict value as a dict). -/
inductive PyErr where
  | httpException (status_code : Nat) (detail : String)
  | keyError (key : String)
  | jsonDecodeError
  | attributeError (attr : String)
  | typeError (msg : String)
deriving Repr, DecidableEq

/-- Holds (`true`) exactly for the structured `HTTPException` errors; every other
constructor is an unhandled Python exception. -/
def PyErr.isHTTPException : PyErr → Bool
  | .httpException _ _ => true
  | _ => false

/-- An HTTP response as seen through `httpx`: the transport status code, the
body text (`response.text`), and the outcome of `response.json()` — `none`
when the body is not valid JSON (Python would raise `json.JSONDecodeError`). -/
structure HttpResponse where
  status_code : Nat
  text : String
  json : Option JValue

/-- Python `dict` lookup on a JSON object's field list (first match; `json.loads`
never yields duplicate keys). -/
def lookupField : List (String × JValue) → String → Option JValue
  | [], _ => none
  | (k, v) :: rest, key => if k = key then some v else lookupField rest key

/-- Python `d[key]` subscription: `KeyError` on a missing key, `TypeError` when
the value is not a dict. -/
def pyIndex (j : JValue) (key : String) : Except PyErr JValue :=
  match j with
  | .obj fields =>
    match lookupField fields key with
    | some v => .ok v
    | none => .error (.keyError key)
  | _ => .error (.typeError "object is not subscriptable")

/-- Python `d.get(key)`: `none` for a missing key; `AttributeError` when the
value is not a dict (no `.get` method). -/
def pyGet (j : JValue) (key : String) : Except PyErr (Option JValue) :=
  match j with
  | .obj fields => .ok (lookupField fields key)
  | _ => .error (.attributeError "get")

/-- Python `str()` as used by the f-string `f"Unexpected status: {status}"`.
Exact on the cases any claim exercises (`None`, booleans and strings); numbers
and containers are rendered approximately, and no claim depends on them. -/
def pyStr : JValue → String
  | .null => "None"
  | .bool true => "True"
  | .bool false => "False"
  | .num q => toString q
  | .str s => s
  | .arr _ => "<list>"
  | .obj _ => "<dict>"

/-- Python `str()` of the value returned by `dict.get`, which is `None` when the key
is absent. -/
def pyStrOpt : Option JValue → String
  | none => "None"
  | some v => pyStr v

/-- Python `pat in s` substring test (for non-empty `pat`, `s.splitOn pat`
has more than one piece exactly when `pat` occurs in `s`). -/
def strContains (s pat : String) : Bool := (s.splitOn pat).length ≠ 1

/-- Python equality between the value of `dict.get("status")` (possibly
`None`) and a string literal: true exactly when the value is that string
(`None == s` and `number == s` are `False` in Python). -/
def statusEq (status : Option JValue) (s : String) : Bool :=
  match status with
  | some (.str t) => t = s
  | _ => false

/-- Configuration of the module-level `AsyncOpenAI` client
(`src/main.py:38-42`): `AsyncOpenAI(api_key=…, timeout=300.0, max_retries=2)`.
The API key comes from the environment and plays no role in any claim. -/
structure AsyncOpenAIConfig where
  timeout : ℚ
  max_retries : Nat
deriving Repr, DecidableEq

/-- The client instance constructed at import time in `src/main.py:38-42`. -/
def openai_client : AsyncOpenAIConfig := { timeout := 300, max_retries := 2 }

/-- Number of HTTP completion requests one `chat.completions.create` call
issues, as a function of the client's configured `max_retries` and of how many
consecutive retriable failures the service produces: the openai SDK issues a
first request and, after each retriable failure, retries until a request
succeeds or `max_retries` retries have been spent. -/
def requestsIssued (max_retries : Nat) (retriableFailures : Nat) : Nat :=
  min (retriableFailures + 1) (max_retries + 1)

/-- Model of `submit_document` (`src/main.py:45-70`), stated on the response of its
single POST: on a non-202 status it raises `HTTPException` with the upstream
status code and a detail embedding the body verbatim; on 202 it returns
`response.json()["whisper_hash"]` (so an unparseable body raises
`JSONDecodeError` and a missing field raises `KeyError`). -/
def submit_document (resp : HttpResponse) : Except PyErr JValue :=
  if resp.status_code ≠ 202 then
    .error (.httpException resp.status_code ("Failed to submit document: " ++ resp.text))
  else
    match resp.json with
    | none => .error .jsonDecodeError
    | some j => pyIndex j "whisper_hash"

/-- Model of `check_status` (`src/main.py:73-88`), stated on the response of its
single GET: a non-200 status raises `HTTPException` with the upstream code and
body; otherwise it returns `response.json()`. -/
def check_status (resp : HttpResponse) : Except PyErr JValue :=
  if resp.status_code ≠ 200 then
    .error (.httpException resp.status_code ("Failed to check status: " ++ resp.text))
  else
    match resp.json with
    | none => .error .jsonDecodeError
    | some j => .ok j

/-- Model of `retrieve_text` (`src/main.py:91-109`): a non-200 status raises
`HTTPException` with the upstream code and body; otherwise it returns
`response.text`. -/
def retrieve_text (resp : HttpResponse) : Except PyErr String :=
  if resp.status_code ≠ 200 then
    .error (.httpException resp.status_code ("Failed to retrieve text: " ++ resp.text))
  else
    .ok resp.text

/-- Outcome of the `openai_client.chat.completions.create(...)` call inside
`parse_invoice_items`, as the environment resolves it: a completion whose
message content is represented by its `json.loads` outcome (`none` when the
content is not valid JSON), a `TimeoutError`, or any other exception with its
type name and `str(e)` message. -/
inductive LLMOutcome where
  | success (contentJson : Option JValue)
  | timeoutErr (msg : String)
  | exception (typeName : String) (msg : String)

/-- Model of `parse_invoice_items` (`src/main.py:112-231`), stated on the LLM call
outcome (the prompt strings do not influence any observable branch and are
elided).  `elapsed` is the wall-clock string Python interpolates into the
timeout detail.  The branch structure follows the source exactly:
`TimeoutError` → `HTTPException 504`; any other exception whose message
contains "502" or "Bad Gateway" → `HTTPException 502`; any other exception →
`HTTPException 500`; on success `json.loads` runs OUTSIDE the try block, so a
non-JSON content raises an uncaught `JSONDecodeError` (and a non-dict JSON
would raise `AttributeError` at `structured_data.get`); otherwise the parsed
object is returned wholesale as `{"success": True, "data": structured_data}`
with no schema validation. -/
def parse_invoice_items (llm : LLMOutcome) (elapsed : String) : Except PyErr JValue :=
  match llm with
  | .timeoutErr _ =>
    .error (.httpException 504
      ("OpenAI API timeout after " ++ elapsed ++ "s. The document may be too large to process in time."))
  | .exception typeName msg =>
    if strContains msg "502" || strContains msg "Bad Gateway" then
      .error (.httpException 502
        "OpenAI service temporarily unavailable (502 Bad Gateway). This may be a temporary issue - please try again.")
    else
      .error (.httpException 500
        ("OpenAI API error: " ++ typeName ++ " - " ++ (msg.take 100)))
  | .success contentJson =>
    match contentJson with
    | none => .error .jsonDecodeError
    | some structured_data =>
      match structured_data with
      | .obj _ =>
        .ok (.obj [("success", .bool true), ("data", structured_data)])
      | _ => .error (.attributeError "get")

/-- The `max_attempts` bound of the polling loop (`src/main.py:254`). -/
def max_attempts : Nat := 150

/-- Terminal outcome of the polling loop of `extract_invoice`
(`src/main.py:258-274`), carrying the value of `attempt` when the loop ended:
- `processed a`: `status == "processed"` observed while `attempt = a` (the
  `break`; `attempt` is not incremented, so `a` status calls preceded this one);
- `failed a e`: the iteration running at `attempt = a` raised `e` (a failed
  `check_status` or the unexpected-status `HTTPException 500`);
- `exhausted a`: the guard `attempt < max_attempts` failed with `attempt = a`. -/
inductive PollResult where
  | processed (attempt : Nat)
  | failed (attempt : Nat) (e : PyErr)
  | exhausted (attempt : Nat)
deriving Repr

/-- The `while attempt < max_attempts` loop of `extract_invoice`
(`src/main.py:258-274`), by recursion on `remaining = max_attempts - attempt`.
Each iteration performs one `check_status` call against the environment's
response for the current call index (the call index equals `attempt`, since
`attempt` is incremented exactly once per completed iteration), reads
`status_response.get("status")`, breaks on `"processed"`, sleeps and retries on
`"processing"`/`"accepted"`, and raises `HTTPException 500` with
`"Unexpected status: " ++ str(status)` on anything else. -/
def pollLoopAux (resps : Nat → HttpResponse) : Nat → Nat → PollResult
  | attempt, 0 => .exhausted attempt
  | attempt, remaining + 1 =>
    match check_status (resps attempt) with
    | .error e => .failed attempt e
    | .ok j =>
      match pyGet j "status" with
      | .error e => .failed attempt e
      | .ok status =>
        if statusEq status "processed" then
          .processed attempt
        else if statusEq status "processing" || statusEq status "accepted" then
          pollLoopAux resps (attempt + 1) remaining
        else
          .failed attempt (.httpException 500 ("Unexpected status: " ++ pyStrOpt status))

/-- The polling loop started as the source starts it: `attempt = 0` and the
guard `attempt < max_attempts`, i.e. `max_attempts` iterations remaining. -/
def pollLoop (resps : Nat → HttpResponse) : PollResult :=
  pollLoopAux resps 0 max_attempts

/-- Number of `check_status` calls a finished polling loop performed: the call
made while `attempt = a` is call number `a`, so a loop that ended inside the
iteration at `attempt = a` made `a + 1` calls, and one that exhausted the guard
at `attempt = a` made `a` calls. -/
def PollResult.statusCalls : PollResult → Nat
  | .processed a => a + 1
  | .failed a _ => a + 1
  | .exhausted a => a

/-- The behaviour of the two external services during one request: the
response to the submit POST, the response to the `i`-th status GET, the
response to the retrieve GET, the LLM call outcome, and the elapsed-time
string an exception branch would interpolate. -/
structure Env where
  submitResp : HttpResponse
  statusResp : Nat → HttpResponse
  retrieveResp : HttpResponse
  llm : LLMOutcome
  elapsed : String

/-- The `/extract-invoice` handler `extract_invoice` (`src/main.py:234-292`):
submit, poll until `processed` / unexpected status / budget exhausted
(`HTTPException 408 "Processing timeout"` when `attempt >= max_attempts`),
then retrieve and structure.  Any exception raised by a stage propagates and
aborts the request; a `processed` break always has `attempt < max_attempts`,
so the timeout check after the loop fires exactly on exhaustion. -/
def extract_invoice (env : Env) : Except PyErr JValue :=
  match submit_document env.submitResp with
  | .error e => .error e
  | .ok _ =>
    match pollLoop env.statusResp with
    | .failed _ e => .error e
    | .exhausted _ => .error (.httpException 408 "Processing timeout")
    | .processed _ =>
      match retrieve_text env.retrieveResp with
      | .error e => .error e
      | .ok _ =>
        parse_invoice_items env.llm env.elapsed

/-- How many `check_status` calls the handler performs for a given
environment: none when submission already raised, otherwise the loop's count. -/
def statusCallCount (env : Env) : Nat :=
  match submit_document env.submitResp with
  | .error _ => 0
  | .ok _ => (pollLoop env.statusResp).statusCalls

/-- Whether the handler reaches the `retrieve_text` call: only after a
successful submit and a poll loop that broke on `"processed"`. -/
def retrieveCalled (env : Env) : Bool :=
  match submit_document env.submitResp with
  | .error _ => false
  | .ok _ =>
    match pollLoop env.statusResp with
    | .processed _ => true
    | _ => false

/-- Model of `test_openai` (`src/main.py:304-322`): the `/test-openai` diagnostic probe.
Its single completion call either yields a content string or raises; the
probe catches every exception and returns a status dict either way — it is a
pure function of the call's outcome (`str(e)` for the error case), touching no
mutable state. -/
def test_openai (outcome : Except String String) : JValue :=
  match outcome with
  | .ok content => .obj [("status", .str "success"), ("response", .str content)]
  | .error e => .obj [("status", .str "error"), ("error", .str e)]

/-- A status-poll response on which the loop retries: transport status 200 and
a JSON-object body whose `status` field is the string `"processing"` or
`"accepted"`. -/
def retriableResp (resp : HttpResponse) : Prop :=
  resp.status_code = 200 ∧ ∃ fields, resp.json = some (.obj fields) ∧
    (lookupField fields "status" = some (.str "processing") ∨
     lookupField fields "status" = some (.str "accepted"))

/-- The twelve `InvoiceLineItem` fields the prompt (`src/main.py:122-133`) and
the spec's data model declare. -/
def lineItemFields : List String :=
  ["product_number", "description", "quantity", "unit", "unit_price", "total_price",
   "country", "supplier", "po_number", "manufacturer", "mpn", "serial_number"]

/-- The six `InvoiceSummary` fields the prompt (`src/main.py:136-141`) and the
spec's data model declare. -/
def invoiceSummaryFields : List String :=
  ["invoice_number", "invoice_date", "subtotal", "freight_charges", "total", "currency"]

/-- Every key of `keys` is present in the object's field list (with any value,
`null` included). -/
def hasAllKeys (fields : List (String × JValue)) (keys : List String) : Bool :=
  keys.all fun k => (lookupField fields k).isSome

/-- Spec-side predicate (written from the spec's words, to be compared with
what the code guarantees): the structured data is an object whose
`line_items` is an array of objects each carrying all twelve declared fields
and whose `invoice_summary` carries all six declared fields. -/
def specSchemaInvariant (d : JValue) : Bool :=
  match d with
  | .obj fields =>
    (match lookupField fields "line_items" with
     | some (.arr items) =>
       items.all fun it =>
         match it with
         | .obj f => hasAllKeys f lineItemFields
         | _ => false
     | _ => false)
    &&
    (match lookupField fields "invoice_summary" with
     | some (.obj f) => hasAllKeys f invoiceSummaryFields
     | _ => false)
  | _ => false

/-- A submit response the service accepts: 202 with a job handle in the body. -/
def okSubmitResp : HttpResponse :=
  { status_code := 202, text := "", json := some (.obj [("whisper_hash", .str "abc123")]) }

/-- A 202 submit response whose JSON body lacks the `whisper_hash` field. -/
def submitRespNoHash : HttpResponse :=
  { status_code := 202, text := "", json := some (.obj []) }

/-- A rejected submit response: status 400 with a diagnostic body. -/
def rejectedSubmitResp : HttpResponse :=
  { status_code := 400, text := "bad request", json := none }

/-- A status poll answering `"accepted"`. -/
def acceptedResp : HttpResponse :=
  { status_code := 200, text := "", json := some (.obj [("status", .str "accepted")]) }

/-- A status poll answering `"processing"`. -/
def processingResp : HttpResponse :=
  { status_code := 200, text := "", json := some (.obj [("status", .str "processing")]) }

/-- A status poll answering `"processed"`. -/
def processedResp : HttpResponse :=
  { status_code := 200, text := "", json := some (.obj [("status", .str "processed")]) }

/-- A status poll answering the unrecognized status `"weird"`. -/
def weirdResp : HttpResponse :=
  { status_code := 200, text := "", json := some (.obj [("status", .str "weird")]) }

/-- A status poll whose valid-JSON body has no `status` field at all. -/
def noStatusFieldResp : HttpResponse :=
  { status_code := 200, text := "", json := some (.obj [("other", .str "x")]) }

/-- A successful retrieve response carrying extracted text. -/
def okRetrieveResp : HttpResponse :=
  { status_code := 200, text := "Item A  2  Ea  1.25  2.50", json := none }

/-- An LLM outcome whose content parses to a well-formed one-row result. -/
def okLLMOutcome : LLMOutcome :=
  .success (some (.obj [("line_items", .arr []), ("invoice_summary", .obj [])]))

/-- Environment for the timeout scenario: every status poll answers
`"processing"`. -/
def envC1 : Env :=
  { submitResp := okSubmitResp, statusResp := fun _ => processingResp,
    retrieveResp := okRetrieveResp, llm := okLLMOutcome, elapsed := "0.00" }

/-- Environment for the rejected-submit scenario. -/
def envC2 : Env :=
  { submitResp := rejectedSubmitResp, statusResp := fun _ => processingResp,
    retrieveResp := okRetrieveResp, llm := okLLMOutcome, elapsed := "0.00" }

/-- Environment in which the pipeline reaches structuring and the LLM answers
text that is not valid JSON. -/
def envC3 : Env :=
  { submitResp := okSubmitResp, statusResp := fun _ => processedResp,
    retrieveResp := okRetrieveResp, llm := .success none, elapsed := "0.00" }

/-- Environment whose submit response is a 202 with no `whisper_hash`. -/
def envC4 : Env :=
  { submitResp := submitRespNoHash, statusResp := fun _ => processedResp,
    retrieveResp := okRetrieveResp, llm := okLLMOutcome, elapsed := "0.00" }

/-- Environment whose first status poll answers the unrecognized `"weird"`. -/
def envC6 : Env :=
  { submitResp := okSubmitResp, statusResp := fun _ => weirdResp,
    retrieveResp := okRetrieveResp, llm := okLLMOutcome, elapsed := "0.00" }

/-- Environment replaying the spec's poll sequence
`[accepted, processing, processed]`. -/
def envC7 : Env :=
  { submitResp := okSubmitResp,
    statusResp := fun i => if i = 0 then acceptedResp else if i = 1 then processingResp else processedResp,
    retrieveResp := okRetrieveResp, llm := okLLMOutcome, elapsed := "0.00" }

/-- Environment in which the LLM answers the valid JSON object `{}`, lacking
every declared field. -/
def envC8 : Env :=
  { submitResp := okSubmitResp, statusResp := fun _ => processedResp,
    retrieveResp := okRetrieveResp, llm := .success (some (.obj [])), elapsed := "0.00" }

/-- Environment whose first status poll returns valid JSON without a `status`
field. -/
def envC10 : Env :=
  { submitResp := okSubmitResp, statusResp := fun _ => noStatusFieldResp,
    retrieveResp := okRetrieveResp, llm := okLLMOutcome, elapsed := "0.00" }

/-! ## Poll-loop lemmas -/

/-- On a 200 response with valid JSON, `check_status` succeeds and returns the
parsed body. -/
theorem check_status_ok_of (resp : HttpResponse) (j : JValue)
    (hcode : resp.status_code = 200) (hjson : resp.json = some j) :
    check_status resp = .ok j := by
  simp [check_status, hcode, hjson]

/-- One retriable response consumes one iteration: the loop moves from
`attempt` to `attempt + 1`. -/
theorem pollLoopAux_step_retry (resps : Nat → HttpResponse) (a r : Nat)
    (h : retriableResp (resps a)) :
    pollLoopAux resps a (r + 1) = pollLoopAux resps (a + 1) r := by
  obtain ⟨hcode, fields, hjson, hstat⟩ := h
  simp only [pollLoopAux, check_status_ok_of _ _ hcode hjson, pyGet]
  rcases hstat with hstat | hstat <;> simp [hstat, statusEq]

/-- Advancing the loop: `k` consecutive retriable responses move it forward
`k` iterations. -/
theorem pollLoopAux_advance (resps : Nat → HttpResponse) (k : Nat) :
    ∀ (a r : Nat), (∀ i, i < k → retriableResp (resps (a + i))) →
      pollLoopAux resps a (k + r) = pollLoopAux resps (a + k) r := by
  induction k with
  | zero => intro a r _; simp
  | succ k ih =>
    intro a r h
    have h0 : retriableResp (resps a) := by simpa using h 0 (Nat.succ_pos k)
    have hkr : k + 1 + r = (k + r) + 1 := by omega
    rw [hkr, pollLoopAux_step_retry resps a (k + r) h0]
    have h' : ∀ i, i < k → retriableResp (resps (a + 1 + i)) := by
      intro i hi
      have hidx : a + 1 + i = a + (i + 1) := by omega
      rw [hidx]
      exact h (i + 1) (by omega)
    rw [ih (a + 1) r h']
    congr 1
    omega

/-- When every one of the first `max_attempts` responses is retriable, the
loop exhausts its budget with `attempt = max_attempts`. -/
theorem pollLoop_exhausted (resps : Nat → HttpResponse)
    (h : ∀ i, i < max_attempts → retriableResp (resps i)) :
    pollLoop resps = .exhausted max_attempts := by
  have h' : ∀ i, i < max_attempts → retriableResp (resps (0 + i)) := by simpa using h
  have hadv := pollLoopAux_advance resps max_attempts 0 0 h'
  simp only [Nat.add_zero, Nat.zero_add] at hadv
  rw [pollLoop, hadv]
  rfl

/-! ## Claims -/

/-- C1: if every status poll answers `processing` or `accepted`, the
orchestrator performs exactly 150 status calls (attempts 1 through 150) and no
more, and the request fails with the dedicated `HTTPException 408
"Processing timeout"`, which differs from the generic-failure code 500 used by
the unexpected-status and generic-error branches. -/
theorem C1_poll_timeout (env : Env)
    (hsub : ∃ h, submit_document env.submitResp = .ok h)
    (hpoll : ∀ i, i < max_attempts → retriableResp (env.statusResp i)) :
    extract_invoice env = .error (.httpException 408 "Processing timeout") ∧
    statusCallCount env = 150 ∧
    ∀ d, (PyErr.httpException 408 "Processing timeout") ≠ .httpException 500 d := by
  obtain ⟨wh, hwh⟩ := hsub
  have hpl := pollLoop_exhausted env.statusResp hpoll
  refine ⟨?_, ?_, ?_⟩
  · simp [extract_invoice, hwh, hpl]
  · simp [statusCallCount, hwh, hpl, PollResult.statusCalls, max_attempts]
  · intro d hd
    simp at hd

/-- Witness for C1: with every poll answering `"processing"`, the handler
times out after exactly 150 status calls. -/
theorem C1_poll_timeout_witness :
    extract_invoice envC1 = .error (.httpException 408 "Processing timeout") ∧
    statusCallCount envC1 = 150 ∧
    ∀ d, (PyErr.httpException 408 "Processing timeout") ≠ .httpException 500 d :=
  C1_poll_timeout envC1 ⟨.str "abc123", rfl⟩
    (fun _ _ => ⟨rfl, [("status", .str "processing")], rfl, Or.inl rfl⟩)

/-- C2: a submit response with any transport status other than 202 fails the
request with the exact upstream status code and the body verbatim in the
detail, and no status poll is ever performed. -/
theorem C2_submit_rejected (env : Env)
    (hcode : env.submitResp.status_code ≠ 202) :
    extract_invoice env =
      .error (.httpException env.submitResp.status_code
        ("Failed to submit document: " ++ env.submitResp.text)) ∧
    statusCallCount env = 0 := by
  have hsub : submit_document env.submitResp =
      .error (.httpException env.submitResp.status_code
        ("Failed to submit document: " ++ env.submitResp.text)) := by
    simp [submit_document, hcode]
  exact ⟨by simp [extract_invoice, hsub], by simp [statusCallCount, hsub]⟩

/-- Witness for C2: a 400 submit response surfaces code 400 and the body
`"bad request"`, with zero status calls. -/
theorem C2_submit_rejected_witness :
    extract_invoice envC2 =
      .error (.httpException 400 ("Failed to submit document: " ++ "bad request")) ∧
    statusCallCount envC2 = 0 :=
  C2_submit_rejected envC2 (by decide)

/-- One iteration on a 200 response whose JSON-object body carries a `status`
string outside `{processed, processing, accepted}` fails with the
unexpected-status `HTTPException 500`. -/
theorem pollLoopAux_unexpected_str (resps : Nat → HttpResponse) (a m : Nat)
    (fields : List (String × JValue)) (s : String)
    (hcode : (resps a).status_code = 200)
    (hjson : (resps a).json = some (.obj fields))
    (hlookup : lookupField fields "status" = some (.str s))
    (h1 : s ≠ "processed") (h2 : s ≠ "processing") (h3 : s ≠ "accepted") :
    pollLoopAux resps a (m + 1) =
      .failed a (.httpException 500 ("Unexpected status: " ++ s)) := by
  simp only [pollLoopAux, check_status_ok_of _ _ hcode hjson, pyGet, hlookup]
  simp [statusEq, h1, h2, h3, pyStrOpt, pyStr]

/-- One iteration on a 200 response whose JSON-object body has no `status`
field fails with `HTTPException 500 "Unexpected status: None"` (Python's
`dict.get` yields `None`, which matches no recognized status). -/
theorem pollLoopAux_missing_status (resps : Nat → HttpResponse) (a m : Nat)
    (fields : List (String × JValue))
    (hcode : (resps a).status_code = 200)
    (hjson : (resps a).json = some (.obj fields))
    (hlookup : lookupField fields "status" = none) :
    pollLoopAux resps a (m + 1) =
      .failed a (.httpException 500 "Unexpected status: None") := by
  simp only [pollLoopAux, check_status_ok_of _ _ hcode hjson, pyGet, hlookup]
  simp [statusEq, pyStrOpt]

/-- One iteration on a 200 response whose JSON-object body carries
`status = "processed"` breaks out of the loop without incrementing
`attempt`. -/
theorem pollLoopAux_processed (resps : Nat → HttpResponse) (a m : Nat)
    (fields : List (String × JValue))
    (hcode : (resps a).status_code = 200)
    (hjson : (resps a).json = some (.obj fields))
    (hlookup : lookupField fields "status" = some (.str "processed")) :
    pollLoopAux resps a (m + 1) = .processed a := by
  simp only [pollLoopAux, check_status_ok_of _ _ hcode hjson, pyGet, hlookup]
  simp [statusEq]

/-- After `k` retriable responses the whole loop coincides with the loop
started at `attempt = k` with the remaining budget. -/
theorem pollLoop_advance_to (resps : Nat → HttpResponse) (k : Nat)
    (hk : k ≤ max_attempts)
    (hpre : ∀ i, i < k → retriableResp (resps i)) :
    pollLoop resps = pollLoopAux resps k (max_attempts - k) := by
  have h' : ∀ i, i < k → retriableResp (resps (0 + i)) := by simpa using hpre
  have hadv := pollLoopAux_advance resps k 0 (max_attempts - k) h'
  have hsum : max_attempts = k + (max_attempts - k) := by omega
  rw [pollLoop]
  nth_rewrite 1 [hsum]
  rw [hadv]
  simp

/-- C6: after any number `k < 150` of retriable polls, a poll whose `status`
string lies outside `{accepted, processing, processed}` fails the request
immediately with the unexpected-status `HTTPException 500` carrying the
string, and the failing call is the last one: exactly `k + 1` status calls. -/
theorem C6_unexpected_status (env : Env) (k : Nat) (s : String)
    (fields : List (String × JValue))
    (hsub : ∃ h, submit_document env.submitResp = .ok h)
    (hk : k < max_attempts)
    (hpre : ∀ i, i < k → retriableResp (env.statusResp i))
    (hcode : (env.statusResp k).status_code = 200)
    (hjson : (env.statusResp k).json = some (.obj fields))
    (hlookup : lookupField fields "status" = some (.str s))
    (h1 : s ≠ "processed") (h2 : s ≠ "processing") (h3 : s ≠ "accepted") :
    extract_invoice env = .error (.httpException 500 ("Unexpected status: " ++ s)) ∧
    statusCallCount env = k + 1 := by
  obtain ⟨wh, hwh⟩ := hsub
  obtain ⟨m, hm⟩ : ∃ m, max_attempts - k = m + 1 := ⟨max_attempts - k - 1, by omega⟩
  have hpl : pollLoop env.statusResp =
      .failed k (.httpException 500 ("Unexpected status: " ++ s)) := by
    rw [pollLoop_advance_to env.statusResp k (le_of_lt hk) hpre, hm,
        pollLoopAux_unexpected_str env.statusResp k m fields s hcode hjson hlookup h1 h2 h3]
  exact ⟨by simp [extract_invoice, hwh, hpl],
         by simp [statusCallCount, hwh, hpl, PollResult.statusCalls]⟩

/-- Witness for C6: the very first poll answers `"weird"`; the request fails
at once with `Unexpected status: weird` after exactly one status call. -/
theorem C6_unexpected_status_witness :
    extract_invoice envC6 = .error (.httpException 500 ("Unexpected status: " ++ "weird")) ∧
    statusCallCount envC6 = 0 + 1 :=
  C6_unexpected_status envC6 0 "weird" [("status", .str "weird")] ⟨.str "abc123", rfl⟩
    (by decide) (fun i hi => absurd hi (by omega)) rfl rfl rfl
    (by decide) (by decide) (by decide)

/-- C10: a poll response whose body is valid JSON (an object) but lacks the
`status` field entirely is not retried: `dict.get` yields `None`, which falls
into the unexpected-status branch, failing the request with
`HTTPException 500 "Unexpected status: None"` after that call. -/
theorem C10_missing_status_field (env : Env) (k : Nat)
    (fields : List (String × JValue))
    (hsub : ∃ h, submit_document env.submitResp = .ok h)
    (hk : k < max_attempts)
    (hpre : ∀ i, i < k → retriableResp (env.statusResp i))
    (hcode : (env.statusResp k).status_code = 200)
    (hjson : (env.statusResp k).json = some (.obj fields))
    (hlookup : lookupField fields "status" = none) :
    extract_invoice env = .error (.httpException 500 "Unexpected status: None") ∧
    statusCallCount env = k + 1 := by
  obtain ⟨wh, hwh⟩ := hsub
  obtain ⟨m, hm⟩ : ∃ m, max_attempts - k = m + 1 := ⟨max_attempts - k - 1, by omega⟩
  have hpl : pollLoop env.statusResp =
      .failed k (.httpException 500 "Unexpected status: None") := by
    rw [pollLoop_advance_to env.statusResp k (le_of_lt hk) hpre, hm,
        pollLoopAux_missing_status env.statusResp k m fields hcode hjson hlookup]
  exact ⟨by simp [extract_invoice, hwh, hpl],
         by simp [statusCallCount, hwh, hpl, PollResult.statusCalls]⟩

/-- Witness for C10: the first poll returns the JSON object
`{"other": "x"}` with no `status` field; the request fails at once with
`Unexpected status: None` after exactly one status call. -/
theorem C10_missing_status_field_witness :
    extract_invoice envC10 = .error (.httpException 500 "Unexpected status: None") ∧
    statusCallCount envC10 = 0 + 1 :=
  C10_missing_status_field envC10 0 [("other", .str "x")] ⟨.str "abc123", rfl⟩
    (by decide) (fun i hi => absurd hi (by omega)) rfl rfl rfl

/-- C7: for the poll-response sequence `[accepted, processing, processed]` the
loop breaks on the third call with `attempt = 2` (the `processed` poll does
not increment `attempt`, so it never counts against the budget), the handler
performs exactly 3 status calls, and it proceeds to `retrieve_text`. -/
theorem C7_three_polls_then_retrieve (env : Env)
    (f0 f1 f2 : List (String × JValue))
    (hsub : ∃ h, submit_document env.submitResp = .ok h)
    (hc0 : (env.statusResp 0).status_code = 200)
    (hj0 : (env.statusResp 0).json = some (.obj f0))
    (hl0 : lookupField f0 "status" = some (.str "accepted"))
    (hc1 : (env.statusResp 1).status_code = 200)
    (hj1 : (env.statusResp 1).json = some (.obj f1))
    (hl1 : lookupField f1 "status" = some (.str "processing"))
    (hc2 : (env.statusResp 2).status_code = 200)
    (hj2 : (env.statusResp 2).json = some (.obj f2))
    (hl2 : lookupField f2 "status" = some (.str "processed")) :
    pollLoop env.statusResp = .processed 2 ∧
    statusCallCount env = 3 ∧
    retrieveCalled env = true := by
  obtain ⟨wh, hwh⟩ := hsub
  have hpl : pollLoop env.statusResp = .processed 2 := by
    have e0 := pollLoopAux_step_retry env.statusResp 0 149 ⟨hc0, f0, hj0, Or.inr hl0⟩
    have e1 := pollLoopAux_step_retry env.statusResp 1 148 ⟨hc1, f1, hj1, Or.inl hl1⟩
    have e2 : pollLoopAux env.statusResp 2 148 = .processed 2 := by
      rw [show (148 : Nat) = 147 + 1 from rfl]
      exact pollLoopAux_processed env.statusResp 2 147 f2 hc2 hj2 hl2
    rw [pollLoop, show max_attempts = 149 + 1 from rfl, e0,
        show (149 : Nat) = 148 + 1 from rfl, e1, e2]
  exact ⟨hpl, by simp [statusCallCount, hwh, hpl, PollResult.statusCalls],
         by simp [retrieveCalled, hwh, hpl]⟩

/-- Witness for C7: the concrete environment replaying
`[accepted, processing, processed]` makes exactly 3 status calls, breaks with
`attempt = 2`, and reaches retrieve. -/
theorem C7_three_polls_then_retrieve_witness :
    pollLoop envC7.statusResp = .processed 2 ∧
    statusCallCount envC7 = 3 ∧
    retrieveCalled envC7 = true :=
  C7_three_polls_then_retrieve envC7
    [("status", .str "accepted")] [("status", .str "processing")] [("status", .str "processed")]
    ⟨.str "abc123", rfl⟩ rfl rfl rfl rfl rfl rfl rfl rfl rfl

/-- C3 counterexample: with a structuring response that is not valid JSON, the
request fails with an uncaught `JSONDecodeError` — `json.loads` runs outside
the `try` block (`src/main.py:225`) — which is not a structured
`HTTPException`, refuting "fails with a ProtocolViolation failure (a surfaced,
structured error)". -/
theorem C3_counterexample :
    extract_invoice envC3 = .error .jsonDecodeError ∧
    PyErr.isHTTPException .jsonDecodeError = false := ⟨rfl, rfl⟩

/-- C3 (amended): when the pipeline reaches structuring and the LLM response
text is not valid JSON, the request fails with an uncaught `JSONDecodeError`
(an unhandled exception, not a structured error) and never returns a partial
`ExtractionResult`. -/
theorem C3_invalid_json_uncaught (env : Env) (a : Nat)
    (hsub : ∃ h, submit_document env.submitResp = .ok h)
    (hpoll : pollLoop env.statusResp = .processed a)
    (hret : env.retrieveResp.status_code = 200)
    (hllm : env.llm = .success none) :
    extract_invoice env = .error .jsonDecodeError ∧
    (∀ v, extract_invoice env ≠ .ok v) ∧
    PyErr.isHTTPException .jsonDecodeError = false := by
  obtain ⟨wh, hwh⟩ := hsub
  have hr : retrieve_text env.retrieveResp = .ok env.retrieveResp.text := by
    simp [retrieve_text, hret]
  have hmain : extract_invoice env = .error .jsonDecodeError := by
    simp [extract_invoice, hwh, hpoll, hr, parse_invoice_items, hllm]
  exact ⟨hmain, by simp [hmain], rfl⟩

/-- Witness for the amended C3 at the concrete environment `envC3`. -/
theorem C3_invalid_json_uncaught_witness :
    extract_invoice envC3 = .error .jsonDecodeError ∧
    (∀ v, extract_invoice envC3 ≠ .ok v) ∧
    PyErr.isHTTPException .jsonDecodeError = false :=
  C3_invalid_json_uncaught envC3 0 ⟨.str "abc123", rfl⟩ rfl rfl rfl

/-- C4 counterexample: a 202 submit response whose body lacks `whisper_hash`
makes `submit_document` raise an uncaught `KeyError`
(`response.json()["whisper_hash"]`, `src/main.py:68`), not a structured
protocol-violation error, refuting "a structured error, not an unhandled
exception". -/
theorem C4_counterexample :
    submit_document submitRespNoHash = .error (.keyError "whisper_hash") ∧
    PyErr.isHTTPException (.keyError "whisper_hash") = false := ⟨rfl, rfl⟩

/-- C4 (amended): a 202 submit response whose JSON-object body lacks the
`whisper_hash` field makes submit raise an uncaught `KeyError`, which aborts
the request before any status poll. -/
theorem C4_missing_hash_keyerror (env : Env) (fields : List (String × JValue))
    (hcode : env.submitResp.status_code = 202)
    (hjson : env.submitResp.json = some (.obj fields))
    (hmiss : lookupField fields "whisper_hash" = none) :
    submit_document env.submitResp = .error (.keyError "whisper_hash") ∧
    extract_invoice env = .error (.keyError "whisper_hash") ∧
    statusCallCount env = 0 := by
  have hs : submit_document env.submitResp = .error (.keyError "whisper_hash") := by
    simp [submit_document, hcode, hjson, pyIndex, hmiss]
  exact ⟨hs, by simp [extract_invoice, hs], by simp [statusCallCount, hs]⟩

/-- Witness for the amended C4 at the concrete environment `envC4`. -/
theorem C4_missing_hash_keyerror_witness :
    submit_document envC4.submitResp = .error (.keyError "whisper_hash") ∧
    extract_invoice envC4 = .error (.keyError "whisper_hash") ∧
    statusCallCount envC4 = 0 :=
  C4_missing_hash_keyerror envC4 [] rfl rfl rfl

/-- C5 counterexample: the module-level client is constructed with
`max_retries=2` (`src/main.py:41`), so when the service produces two
consecutive retriable failures one `structure` call issues 3 completion
requests, refuting "issues exactly one completion request". -/
theorem C5_counterexample :
    requestsIssued openai_client.max_retries 2 = 3 ∧ (3 : Nat) ≠ 1 :=
  ⟨rfl, by decide⟩

/-- C5 (amended): the LLM client is configured with 2 internal retries, so one
call issues `min (failures + 1) 3` completion requests — exactly one only when
the first attempt succeeds, and up to 3 under retriable failures. -/
theorem C5_retry_budget (f : Nat) :
    requestsIssued openai_client.max_retries f = min (f + 1) 3 ∧
    requestsIssued openai_client.max_retries 0 = 1 ∧
    openai_client.max_retries = 2 :=
  ⟨rfl, rfl, rfl⟩

/-- C8 counterexample: the code never validates the structured JSON
(`src/main.py:224-231` returns it wholesale), so an LLM answer of `{}` — a
valid JSON object with no fields at all — yields a successful
`ExtractionResult` violating the always-all-fields schema invariant. -/
theorem C8_counterexample :
    extract_invoice envC8 = .ok (.obj [("success", .bool true), ("data", .obj [])]) ∧
    specSchemaInvariant (.obj []) = false := ⟨rfl, rfl⟩

/-- C8 (amended): a successful `ExtractionResult` is exactly
`{"success": true, "data": d}` where `d` is the LLM's JSON object verbatim;
no schema validation is performed, so the all-fields invariant holds only if
the model's output happens to satisfy it. -/
theorem C8_success_wraps_model_output (env : Env) (v : JValue)
    (h : extract_invoice env = .ok v) :
    ∃ fields, env.llm = .success (some (.obj fields)) ∧
      v = .obj [("success", .bool true), ("data", .obj fields)] := by
  unfold extract_invoice at h
  cases hs : submit_document env.submitResp with
  | error e => rw [hs] at h; simp at h
  | ok wh =>
    rw [hs] at h
    cases hp : pollLoop env.statusResp with
    | failed a e => rw [hp] at h; simp at h
    | exhausted a => rw [hp] at h; simp at h
    | processed a =>
      rw [hp] at h
      cases hr : retrieve_text env.retrieveResp with
      | error e => rw [hr] at h; simp at h
      | ok t =>
        rw [hr] at h
        cases hl : env.llm with
        | timeoutErr m => rw [hl] at h; simp [parse_invoice_items] at h
        | exception tn m =>
          rw [hl] at h
          simp only [parse_invoice_items] at h
          split at h <;> simp at h
        | success c =>
          cases c with
          | none => rw [hl] at h; simp [parse_invoice_items] at h
          | some d =>
            rw [hl] at h
            cases d with
            | obj fields =>
              simp only [parse_invoice_items] at h
              exact ⟨fields, rfl, by injection h with h'; exact h'.symm⟩
            | null => simp [parse_invoice_items] at h
            | bool b => simp [parse_invoice_items] at h
            | num q => simp [parse_invoice_items] at h
            | str s => simp [parse_invoice_items] at h
            | arr items => simp [parse_invoice_items] at h

/-- Witness for the amended C8: at `envC8` the model answered `{}` and the
successful result wraps exactly that object. -/
theorem C8_success_wraps_model_output_witness :
    ∃ fields, envC8.llm = .success (some (.obj fields)) ∧
      (JValue.obj [("success", .bool true), ("data", .obj [])]) =
        .obj [("success", .bool true), ("data", .obj fields)] :=
  C8_success_wraps_model_output envC8
    (.obj [("success", .bool true), ("data", .obj [])]) rfl

/-- C9: the diagnostic probe is a pure function of the completion call's
outcome — two invocations under identical external-service behaviour give the
same result — and it always returns a status object (`"success"` with the
content, or `"error"` with `str(e)`) rather than raising. -/
theorem C9_probe_deterministic (outcome : Except String String) :
    test_openai outcome = test_openai outcome ∧
    ((∃ r, outcome = .ok r ∧
        test_openai outcome = .obj [("status", .str "success"), ("response", .str r)]) ∨
     (∃ e, outcome = .error e ∧
        test_openai outcome = .obj [("status", .str "error"), ("error", .str e)])) := by
  refine ⟨rfl, ?_⟩
  cases outcome with
  | ok r => exact Or.inl ⟨r, rfl, rfl⟩
  | error e => exact Or.inr ⟨e, rfl, rfl⟩

end InvoiceExtractor
